import Mathlib

/-!
Verification development for the SafeSwap swap-bundle assembly pipeline.

Shallow embedding of the two assembly implementations of the repository:

* `src/services/SwapBundleService.ts` — `prepareBundleTransactions`,
  `createApprovalTransaction`, `getSwapQuote`;
* `src/services/TokenBridgeService.js` — `createSwapBundle`,
  `getTokenPrice` and its price cache.

JavaScript decimal amount strings are embedded as the inductive `Amount`,
recording how `parseFloat` and `ethers.parseUnits` behave on them.  Machine
integers (`BigInt` through ethers) are embedded as `Int`; USD totals and
human-unit outputs (JS floating point summations of decimal strings) are
embedded as `Rat`.  Network effects (fetch / Promise settlement) are
embedded by passing each call's settled outcome as an explicit argument
(the "oracle"), with `Except String` standing for resolve / reject.
-/

/-- Embedding of a JavaScript amount string.

* `dec m k` — a well-formed fixed-point decimal numeral with `k` digits
  after the decimal point whose numeric value is `m / 10^k` (mantissa
  `m`, e.g. `"1.50"` is `dec 150 2`); `parseFloat` yields that value and
  `ethers.parseUnits` succeeds exactly when `k ≤ decimals`.
* `loose q` — a string on which `parseFloat` yields the number `q` but
  which is not a plain fixed-point numeral (for example `"1.5abc"` or
  `"1e3"`), so `ethers.parseUnits` throws.
* `nonNumeric` — `parseFloat` yields `NaN` and `parseUnits` throws. -/
inductive Amount where
  | dec (m : ℤ) (k : ℕ)
  | loose (q : ℚ)
  | nonNumeric
deriving DecidableEq, Repr

/-- Value of `parseFloat` on the string: `none` stands for `NaN`. -/
def Amount.parseFloatVal : Amount → Option ℚ
  | .dec m k => some ((m : ℚ) / 10 ^ k)
  | .loose q => some q
  | .nonNumeric => none

/-- Embedding of `ethers.parseUnits(amount, d)`: converts a fixed-point
decimal string to an integer count of smallest units (`value * 10^d`),
throwing (`none`) when the string is not a plain numeral or has more than
`d` fractional digits. -/
def Amount.parseUnits : Amount → ℕ → Option ℤ
  | .dec m k, d => if k ≤ d then some (m * 10 ^ (d - k)) else none
  | .loose _, _ => none
  | .nonNumeric, _ => none

/-- Embedding of `ethers.formatUnits(n, d)` read back as a number:
the human-unit value `n / 10^d`. -/
def formatUnitsQ (n : ℤ) (d : ℕ) : ℚ := (n : ℚ) / 10 ^ d

/-- The JS truthiness filter `parseFloat(amount) > 0` used at
`SwapBundleService.ts:91` (`NaN > 0` is `false`); for a fixed-point
numeral `m / 10^k` positivity is positivity of the mantissa. -/
def amountPos (a : Amount) : Bool :=
  match a with
  | .dec m _ => decide (0 < m)
  | .loose q => decide (0 < q)
  | .nonNumeric => false

/-- Embedding of the `Token` interface of `src/types.ts` (fields the
pipeline reads). -/
structure Token where
  symbol : String
  address : String
  decimals : ℕ
  priceUsd : Option ℚ
  isNative : Bool
deriving DecidableEq, Repr

/-- Embedding of the `TokenAmount` interface of `src/types.ts`. -/
structure TokenAmount where
  token : Token
  amount : Amount
  isMax : Bool
deriving DecidableEq, Repr

/-- Embedding of the quote record returned by
`SwapBundleService.getSwapQuote` (lines 243–249): the response fields are
passed through unvalidated, so the router address and calldata may be
absent (`undefined`). -/
structure SQuote where
  routerAddress : Option String
  calldata : Option String
  outputAmount : Amount
  minOutputAmount : Amount
  priceImpact : ℚ
deriving DecidableEq, Repr

/-- Payload of a transaction built by `prepareBundleTransactions`: either
ERC20 `approve(spender, amount)` calldata or the router call payload
copied from the quote. -/
inductive TxData where
  | approve (spender : String) (amount : ℤ)
  | routerCall (calldata : Option String)
deriving DecidableEq, Repr

/-- A transaction object `{to, value, data}` as pushed onto the
`transactions` array of `prepareBundleTransactions` (`toAddr` embeds the
`to` field). -/
structure Tx where
  toAddr : Option String
  value : ℤ
  data : TxData
deriving DecidableEq, Repr

/-- Result of `prepareBundleTransactions`: `{success:false, error}` or
`{success:true, txs, totalValueUsd, estimatedOutput}`. -/
inductive PrepareResult where
  | failure (error : String)
  | ok (txs : List Tx) (totalValueUsd : ℚ) (estimatedOutput : ℚ)
deriving DecidableEq, Repr

/-- Embedding of `SwapBundleService.createApprovalTransaction`
(lines 168–194): encodes `approve(spender, parseUnits(amount, decimals))`
against the token contract with value `0`.  `ethers` throws when the
amount does not parse or the spender address is `undefined`. -/
def createApprovalTransaction (token : Token) (spender : Option String) (amount : Amount) :
    Except String Tx :=
  match amount.parseUnits token.decimals with
  | none => .error "invalid decimal value"
  | some n =>
    match spender with
    | none => .error "invalid address"
    | some sp => .ok ⟨some token.address, 0, .approve sp n⟩

/-- The USD total contribution of one selection (lines 115–117): guarded
by JS truthiness of `token.priceUsd`, with a missing price contributing
zero. -/
def usdContribution (ta : TokenAmount) : ℚ :=
  match ta.token.priceUsd with
  | some p => if p = 0 then 0 else (ta.amount.parseFloatVal.getD 0) * p
  | none => 0

/-- One iteration of the per-swap loop of `prepareBundleTransactions`
(lines 110–140): the USD contribution, the smallest-unit output
contribution `parseUnits(quote.outputAmount, targetToken.decimals)`, and
the transactions pushed for this selection (approval for non-native
tokens, then the swap, whose value is `parseUnits(amount, decimals)` for
a native source and `"0"` otherwise). -/
def processOne (target : Token) (ta : TokenAmount) (q : SQuote) :
    Except String (List Tx × ℚ × ℤ) :=
  let usd : ℚ := usdContribution ta
  match q.outputAmount.parseUnits target.decimals with
  | none => .error "invalid decimal value"
  | some out =>
    if ta.token.isNative then
      match ta.amount.parseUnits ta.token.decimals with
      | none => .error "invalid decimal value"
      | some v => .ok ([⟨q.routerAddress, v, .routerCall q.calldata⟩], usd, out)
    else
      match createApprovalTransaction ta.token q.routerAddress ta.amount with
      | .error e => .error e
      | .ok appr => .ok ([appr, ⟨q.routerAddress, 0, .routerCall q.calldata⟩], usd, out)

/-- The whole per-swap loop: left-to-right over the (valid token, quote)
pairs, concatenating transactions and summing both totals; the first
thrown error aborts the loop (and is caught by the surrounding `try`). -/
def processTokens (target : Token) : List (TokenAmount × SQuote) → Except String (List Tx × ℚ × ℤ)
  | [] => .ok ([], 0, 0)
  | (ta, q) :: rest =>
    match processOne target ta q with
    | .error e => .error e
    | .ok (txs₁, usd₁, out₁) =>
      match processTokens target rest with
      | .error e => .error e
      | .ok (txs₂, usd₂, out₂) => .ok (txs₁ ++ txs₂, usd₁ + usd₂, out₁ + out₂)

/-- Settlement of `Promise.all(validTokens.map(... getSwapQuote ...))`
(lines 98–102): the per-call settled outcome is supplied by `oracle`;
`Promise.all` resolves with the list of values, or rejects with the first
rejection in list order. -/
def mapQuotes (oracle : TokenAmount → Except String SQuote) :
    List TokenAmount → Except String (List SQuote)
  | [] => .ok []
  | ta :: rest =>
    match oracle ta with
    | .error e => .error e
    | .ok q =>
      match mapQuotes oracle rest with
      | .error e => .error e
      | .ok qs => .ok (q :: qs)

/-- Embedding of `SwapBundleService.prepareBundleTransactions`
(lines 69–158).  `sdkSet` models `isInitialized()` (the Safe SDK being
set), `apiKey` the stored credential, and `oracle` the settled outcome of
each token's `getSwapQuote` call. -/
def prepareBundleTransactions (sdkSet : Bool) (apiKey : Option String)
    (oracle : TokenAmount → Except String SQuote)
    (selectedTokens : List TokenAmount) (targetToken : Token) : PrepareResult :=
  if !sdkSet then .failure "SwapBundleService not initialized"
  else if apiKey.isNone then .failure "API key not set"
  else
    let validTokens := selectedTokens.filter (fun ta => amountPos ta.amount)
    if validTokens.isEmpty then .failure "No valid swaps to execute"
    else
      match mapQuotes oracle validTokens with
      | .error e => .failure e
      | .ok quotes =>
        match processTokens targetToken (validTokens.zip quotes) with
        | .error e => .failure e
        | .ok (txs, usd, out) => .ok txs usd (formatUnitsQ out targetToken.decimals)

/-- Number of HTTP quote requests `prepareBundleTransactions` issues:
one `fetch` per valid token whose amount survives the `parseUnits` call at
`getSwapQuote` line 218 (the early returns at lines 81–95 issue none, and
`Promise.all` never cancels an issued request). -/
def prepareQuoteRequestCount (sdkSet : Bool) (apiKey : Option String)
    (selectedTokens : List TokenAmount) : ℕ :=
  if !sdkSet then 0
  else if apiKey.isNone then 0
  else
    let validTokens := selectedTokens.filter (fun ta => amountPos ta.amount)
    if validTokens.isEmpty then 0
    else (validTokens.filter (fun ta => (ta.amount.parseUnits ta.token.decimals).isSome)).length

/-- Embedding of the HTTP response seen by `getSwapQuote`: `ok` / `status`
/ body text of the fetch `Response`, and the JSON fields the code reads
(each `Option` because the JSON may omit it, yielding `undefined`). -/
structure ApiResponse where
  ok : Bool
  status : ℕ
  bodyText : String
  routerAddress : Option String
  calldata : Option String
  outputAmount : Amount
  minOutputAmount : Amount
  priceImpact : Option ℚ
deriving DecidableEq, Repr

/-- Embedding of `SwapBundleService.getSwapQuote` (lines 204–254):
converts the amount (throwing on a malformed numeral), then — given the
settled HTTP response `resp` — throws on a non-ok status, and otherwise
returns the JSON fields verbatim, with no validation of `routerAddress` or
`calldata` (`data.priceImpact || 0` is JS truthiness). -/
def getSwapQuote (inputToken : Token) (amount : Amount) (resp : ApiResponse) :
    Except String SQuote :=
  match amount.parseUnits inputToken.decimals with
  | none => .error "invalid decimal value"
  | some _ =>
    if resp.ok then
      .ok ⟨resp.routerAddress, resp.calldata, resp.outputAmount, resp.minOutputAmount,
        match resp.priceImpact with
        | some p => if p = 0 then 0 else p
        | none => 0⟩
    else
      .error ("API request failed: " ++ toString resp.status ++ " " ++ resp.bodyText)

/-- Embedding of a token object passed to
`TokenBridgeService.createSwapBundle` (the fields the code reads; the
amount rides on the token object there).  A JS-absent `decimals` is
`none`. -/
structure BToken where
  address : String
  symbol : String
  decimals : Option ℕ
  amount : Amount
deriving DecidableEq, Repr

/-- Embedding of `token.decimals || 18` — JS truthiness, so both absent
and `0` decimals fall back to `18`. -/
def jsDecimals (d : Option ℕ) : ℕ :=
  match d with
  | some n => if n = 0 then 18 else n
  | none => 18

/-- Embedding of the target token (`options.targetToken`, with the BERA
default already applied by the caller). -/
structure BTarget where
  address : String
  symbol : String
  decimals : Option ℕ
deriving DecidableEq, Repr

/-- Embedding of the `tx` object inside an OogaBooga swap response as read
by `createSwapBundle` (`to`, `data`, `value`, each possibly absent). -/
structure BTx where
  toAddr : Option String
  data : Option String
  value : Option ℤ
deriving DecidableEq, Repr

/-- Embedding of the swap quote response of `apiCallWithAuth` as read by
`createSwapBundle`: the `tx` object and the raw smallest-unit output
amounts (absent fields are `none`; a JS falsy amount string does not occur
since the API returns nonempty strings). -/
structure BResp where
  tx : Option BTx
  assumedAmountOut : Option ℤ
  expectedAmountOut : Option ℤ
  minAmountOut : Option ℤ
  priceImpact : Option ℚ
deriving DecidableEq, Repr

/-- Settled outcome of one element of the `apiCallPromises` array
(lines 191–221): the per-token `try` catches every throw and turns it into
an error record, so the promise always resolves. -/
inductive BQuoteResult where
  | ok (token : BToken) (amountIn : ℤ) (tx : BTx) (outAmt : Option ℤ)
      (minOut : Option ℤ) (pImpact : Option ℚ)
  | err (token : BToken) (error : String)
deriving DecidableEq, Repr

/-- Embedding of one `apiCallPromises` closure (lines 191–221):
`parseUnits` on the amount, then the quote request (its settled outcome
given by `oracle`), then the `!quoteResponse.tx` check; any throw becomes
an `err` record carrying the token and message.  On success the output
amount is `assumedAmountOut || expectedAmountOut` (JS truthiness on
strings ≈ field presence). -/
def quoteOne (oracle : BToken → Except String BResp) (t : BToken) : BQuoteResult :=
  match t.amount.parseUnits (jsDecimals t.decimals) with
  | none => .err t "invalid decimal value"
  | some amountIn =>
    match oracle t with
    | .error e => .err t e
    | .ok resp =>
      match resp.tx with
      | none => .err t ("Swap response does not contain transaction data for " ++ t.symbol)
      | some tx =>
        .ok t amountIn tx
          (match resp.assumedAmountOut with
           | some o => some o
           | none => resp.expectedAmountOut)
          resp.minAmountOut resp.priceImpact

/-- Value of `ethers.constants.MaxUint256`, the allowance amount encoded
into every approval transaction of `createSwapBundle` (line 248). -/
def maxUint256 : ℤ := 2 ^ 256 - 1

/-- An approval transaction as built by `createSwapBundle`
(lines 246–258): `approve(spender, amount)` calldata against the token
contract. -/
structure BApprovalTx where
  toAddr : String
  spender : String
  amount : ℤ
deriving DecidableEq, Repr

/-- A swap transaction as built by `createSwapBundle` (lines 261–283),
keeping the fields the claims and callers read. -/
structure BSwapTx where
  toAddr : String
  data : Option String
  value : ℤ
  tokenAddress : String
  amountIn : ℤ
  outputToken : String
  outputQuote : Option ℤ
  minOutput : ℤ
  formattedAmountOut : ℚ
  priceImpact : Option ℚ
deriving DecidableEq, Repr

/-- Builder for the swap transaction record of lines 261–283. -/
def mkSwapTx (target : BTarget) (t : BToken) (amountIn : ℤ) (tx : BTx)
    (outAmt : ℤ) (minOut : Option ℤ) (pImpact : Option ℚ) (toAddr : String) : BSwapTx :=
  { toAddr := toAddr
    data := tx.data
    value := tx.value.getD 0
    tokenAddress := t.address
    amountIn := amountIn
    outputToken := target.address
    outputQuote := some outAmt
    minOutput := minOut.getD 0
    formattedAmountOut := formatUnitsQ outAmt (jsDecimals target.decimals)
    priceImpact := pImpact }

/-- Embedding of the result-processing loop of `createSwapBundle`
(lines 231–286): error records and transactions without a truthy `tx.to`
are skipped silently; for the rest an unlimited (`MaxUint256`) approval
and a swap transaction are appended, in result order.
`ethers.utils.formatUnits(undefined, d)` throws, so a usable result whose
response carried neither `assumedAmountOut` nor `expectedAmountOut` aborts
the whole bundle (caught by the outer `try`). -/
def buildTxs (target : BTarget) : List BQuoteResult → Except String (List BSwapTx × List BApprovalTx)
  | [] => .ok ([], [])
  | .err _ _ :: rest => buildTxs target rest
  | .ok t amountIn tx outAmt minOut pImpact :: rest =>
    match tx.toAddr with
    | none => buildTxs target rest
    | some toAddr =>
      if toAddr = "" then buildTxs target rest
      else
        match outAmt with
        | none => .error "invalid value"
        | some out =>
          match buildTxs target rest with
          | .error e => .error e
          | .ok (swaps, apprs) =>
            .ok (mkSwapTx target t amountIn tx out minOut pImpact toAddr :: swaps,
              ⟨t.address, toAddr, maxUint256⟩ :: apprs)

/-- Result of `createSwapBundle`: `{error, swapTxs:[], approvalTxs:[]}` or
the successful bundle with its totals. -/
inductive BundleResult where
  | err (msg : String)
  | ok (swapTxs : List BSwapTx) (approvalTxs : List BApprovalTx) (totalExpectedOutput : ℚ)
deriving DecidableEq, Repr

/-- The selection filter of `createSwapBundle` (lines 177–179): drops
native BERA entries and entries without a truthy address — amounts are not
inspected here. -/
def bridgeFilter (t : BToken) : Bool :=
  !(t.address = "native" || t.symbol = "BERA") && !(t.address = "")

/-- Embedding of `TokenBridgeService.createSwapBundle` (lines 157–323).
`oracle` gives the settled outcome of each token's quote request. -/
def createSwapBundle (safeAddress : String) (tokensToSwap : List BToken)
    (target : BTarget) (oracle : BToken → Except String BResp) : BundleResult :=
  if safeAddress = "" then .err "Safe address is required"
  else if tokensToSwap.isEmpty then .err "No tokens provided for swap"
  else
    let tokensToProcess := tokensToSwap.filter bridgeFilter
    if tokensToProcess.isEmpty then .err "No valid tokens to swap"
    else
      let results := tokensToProcess.map (quoteOne oracle)
      match buildTxs target results with
      | .error e => .err e
      | .ok (swaps, apprs) =>
        if swaps.isEmpty then .err "Failed to create any valid swap transactions"
        else
          .ok swaps apprs (swaps.foldl (fun s tx => s + tx.formattedAmountOut) 0)

/-- Number of HTTP quote requests `createSwapBundle` issues: one
`apiCallWithAuth` per filtered token whose amount survives the
`parseUnits` call at line 194 (the closure throws before fetching
otherwise); the early returns issue none. -/
def bridgeQuoteRequestCount (safeAddress : String) (tokensToSwap : List BToken) : ℕ :=
  if safeAddress = "" then 0
  else if tokensToSwap.isEmpty then 0
  else
    ((tokensToSwap.filter bridgeFilter).filter
      (fun t => (t.amount.parseUnits (jsDecimals t.decimals)).isSome)).length

/-- Embedding of a `priceCache` entry of `TokenBridgeService`
(lines 130–133): the cached price and the `Date.now()` timestamp at which
it was stored.  Times are milliseconds as integers. -/
structure PriceCacheEntry where
  price : ℚ
  timestamp : ℤ
deriving DecidableEq, Repr

/-- The process-wide price cache, keyed by the token address string. -/
def PriceCache : Type := String → Option PriceCacheEntry

/-- Store an entry under an address (plain JS property assignment,
last write wins). -/
def cachePut (c : PriceCache) (addr : String) (e : PriceCacheEntry) : PriceCache :=
  fun a => if a = addr then some e else c a

/-- A cache with no entry for the given address (for stating that a stale
entry behaves as if never stored). -/
def cacheErase (c : PriceCache) (addr : String) : PriceCache :=
  fun a => if a = addr then none else c a

/-- The freshness window `this.priceExpiry = 5 * 60 * 1000` milliseconds
(`TokenBridgeService.js:18`). -/
def priceExpiry : ℤ := 5 * 60 * 1000

/-- One `{address, price}` element of the `/v1/prices` response array;
`price` is `none` when the field is absent or JS-falsy (the code checks
`tokenPrice && tokenPrice.price` before caching). -/
structure PriceItem where
  address : String
  price : Option ℚ
deriving DecidableEq, Repr

/-- Lower-casing used by the `.toLowerCase()` comparison at line 123. -/
def lowerStr (s : String) : String := s.map Char.toLower

/-- Outcome of one `getTokenPrice` call: the returned price (or `null`),
whether an HTTP fetch was issued, and the cache afterwards. -/
structure PriceLookup where
  result : Option ℚ
  fetched : Bool
  cache : PriceCache

/-- Normalization of the native-token sentinels to the zero address
(lines 112–114). -/
def nativeParam (addr : String) : String :=
  if addr = "BERA" || addr = "native" then "0x0000000000000000000000000000000000000000"
  else addr

/-- The fetch path of `getTokenPrice` (lines 110–140): normalize the
native sentinel to the zero address, find the case-insensitive match in
the response array, cache and return a truthy price, and return `null`
otherwise (including on any caught throw). -/
def getTokenPriceFetch (cache : PriceCache) (addr : String) (now : ℤ)
    (fetch : Except String (Option (List PriceItem))) : PriceLookup :=
  match fetch with
  | .error _ => ⟨none, true, cache⟩
  | .ok none => ⟨none, true, cache⟩
  | .ok (some items) =>
    match items.find? (fun it => lowerStr it.address = lowerStr (nativeParam addr)) with
    | none => ⟨none, true, cache⟩
    | some it =>
      match it.price with
      | none => ⟨none, true, cache⟩
      | some p =>
        if p = 0 then ⟨none, true, cache⟩
        else ⟨some p, true, cachePut cache addr ⟨p, now⟩⟩

/-- Embedding of `TokenBridgeService.getTokenPrice` (lines 98–146).
`addr = ""` embeds a falsy `tokenAddress`; `now` is `Date.now()`;
`fetch` is the settled outcome of `apiCallWithAuth('/v1/prices...')`,
with `.ok none` embedding a non-array response.  A cache entry is fresh
when `now - timestamp < priceExpiry` (strict); a stale or missing entry
falls through to the fetch path. -/
def getTokenPrice (cache : PriceCache) (addr : String) (now : ℤ)
    (fetch : Except String (Option (List PriceItem))) : PriceLookup :=
  if addr = "" then ⟨none, false, cache⟩
  else
    match cache addr with
    | some e =>
      if now - e.timestamp < priceExpiry then ⟨some e.price, false, cache⟩
      else getTokenPriceFetch cache addr now fetch
    | none => getTokenPriceFetch cache addr now fetch

/-- A transaction is a swap (router call) rather than an approval. -/
def Tx.isSwap (tx : Tx) : Bool :=
  match tx.data with
  | .routerCall _ => true
  | .approve _ _ => false

/-- A per-token quote result is an error record. -/
def BQuoteResult.isErr : BQuoteResult → Bool
  | .err _ _ => true
  | .ok _ _ _ _ _ _ => false

/-- Well-formedness of one (selection, quote) pair: the quote output and
the input amount parse, and a non-native source has a router address.
Under these the loop body of `prepareBundleTransactions` cannot throw. -/
def selectionWF (target : Token) (ta : TokenAmount) (q : SQuote) : Prop :=
  (q.outputAmount.parseUnits target.decimals).isSome = true ∧
  (ta.amount.parseUnits ta.token.decimals).isSome = true ∧
  (ta.token.isNative = false → q.routerAddress.isSome = true)

instance (target : Token) (ta : TokenAmount) (q : SQuote) :
    Decidable (selectionWF target ta q) := by
  unfold selectionWF; infer_instance

/-- The transactions the loop of `prepareBundleTransactions` pushes for
one selection: a single swap for a native source, else the exact-amount
approval followed by the swap with value zero. -/
def expectedOps (_target : Token) (ta : TokenAmount) (q : SQuote) : List Tx :=
  if ta.token.isNative then
    [⟨q.routerAddress, (ta.amount.parseUnits ta.token.decimals).getD 0, .routerCall q.calldata⟩]
  else
    [⟨some ta.token.address, 0,
      .approve (q.routerAddress.getD "") ((ta.amount.parseUnits ta.token.decimals).getD 0)⟩,
     ⟨q.routerAddress, 0, .routerCall q.calldata⟩]

/-- Concatenation of the per-selection transactions, in selection order. -/
def opsConcat (target : Token) : List (TokenAmount × SQuote) → List Tx
  | [] => []
  | p :: rest => expectedOps target p.1 p.2 ++ opsConcat target rest

theorem expectedOps_length (target : Token) (ta : TokenAmount) (q : SQuote) :
    (expectedOps target ta q).length = if ta.token.isNative then 1 else 2 := by
  unfold expectedOps
  by_cases h : ta.token.isNative <;> simp [h]

/-- Sum of the per-selection USD contributions, in selection order. -/
def usdSum : List (TokenAmount × SQuote) → ℚ
  | [] => 0
  | p :: rest => usdContribution p.1 + usdSum rest

/-- Sum of the per-selection smallest-unit outputs, in selection order. -/
def outSum (target : Token) : List (TokenAmount × SQuote) → ℤ
  | [] => 0
  | p :: rest => (p.2.outputAmount.parseUnits target.decimals).getD 0 + outSum target rest

theorem processOne_wf {target : Token} {ta : TokenAmount} {q : SQuote}
    (h : selectionWF target ta q) :
    processOne target ta q = .ok (expectedOps target ta q, usdContribution ta,
      (q.outputAmount.parseUnits target.decimals).getD 0) := by
  obtain ⟨h1, h2, h3⟩ := h
  obtain ⟨out, hout⟩ := Option.isSome_iff_exists.mp h1
  obtain ⟨v, hv⟩ := Option.isSome_iff_exists.mp h2
  unfold processOne expectedOps createApprovalTransaction
  by_cases hn : ta.token.isNative
  · simp [hn, hout, hv]
  · obtain ⟨r, hr⟩ := Option.isSome_iff_exists.mp (h3 (by simp [hn]))
    simp [hn, hout, hv, hr]

theorem processTokens_wf {target : Token} :
    ∀ {pairs : List (TokenAmount × SQuote)},
    (∀ p ∈ pairs, selectionWF target p.1 p.2) →
    processTokens target pairs = .ok (opsConcat target pairs, usdSum pairs, outSum target pairs)
  | [], _ => rfl
  | p :: rest, h => by
    have h1 := processOne_wf (h p (List.mem_cons_self p rest))
    have h2 := processTokens_wf (fun x hx => h x (List.mem_cons_of_mem p hx))
    simp [processTokens, h1, h2, opsConcat, usdSum, outSum]

theorem opsConcat_length (target : Token) :
    ∀ pairs : List (TokenAmount × SQuote),
    (opsConcat target pairs).length =
      (pairs.map (fun p => if p.1.token.isNative then 1 else 2)).sum
  | [] => rfl
  | p :: rest => by
    simp [opsConcat, expectedOps_length, opsConcat_length target rest]

theorem mapQuotes_length {oracle : TokenAmount → Except String SQuote} :
    ∀ {l : List TokenAmount} {qs : List SQuote},
    mapQuotes oracle l = .ok qs → qs.length = l.length
  | [], qs, h => by simp [mapQuotes] at h; simp [← h]
  | ta :: rest, qs, h => by
    unfold mapQuotes at h
    cases hq : oracle ta with
    | error e => rw [hq] at h; exact absurd h (by simp)
    | ok q =>
      rw [hq] at h
      cases hrest : mapQuotes oracle rest with
      | error e => rw [hrest] at h; exact absurd h (by simp)
      | ok qs₂ =>
        rw [hrest] at h
        cases h
        simp [mapQuotes_length hrest]

theorem getTokenPriceFetch_indep (c c₂ : PriceCache) (addr : String) (now : ℤ)
    (fetch : Except String (Option (List PriceItem))) :
    (getTokenPriceFetch c addr now fetch).result = (getTokenPriceFetch c₂ addr now fetch).result ∧
    (getTokenPriceFetch c addr now fetch).fetched = (getTokenPriceFetch c₂ addr now fetch).fetched := by
  unfold getTokenPriceFetch
  cases fetch with
  | error e => exact ⟨rfl, rfl⟩
  | ok o =>
    cases o with
    | none => exact ⟨rfl, rfl⟩
    | some items =>
      cases hf : items.find? (fun it => lowerStr it.address = lowerStr (nativeParam addr)) with
      | none => simp [hf]
      | some it =>
        cases hp : it.price with
        | none => simp [hf, hp]
        | some p =>
          by_cases hz : p = 0 <;> simp only [hf, hp] <;> simp [hz]

theorem mapQuotes_cons_error {oracle : TokenAmount → Except String SQuote}
    {ta : TokenAmount} (rest : List TokenAmount) {e : String}
    (h : oracle ta = .error e) : mapQuotes oracle (ta :: rest) = .error e := by
  unfold mapQuotes
  rw [h]

/-! Concrete sample data used by counterexamples and witnesses. -/

/-- A plain ERC20 token with 18 decimals and no known price. -/
def exTokenA : Token := ⟨"TKA", "0xaaa", 18, none, false⟩

/-- A second ERC20 token, used as the entry whose quote fails. -/
def exTokenB : Token := ⟨"TKB", "0xbbb", 18, none, false⟩

/-- The native token (18 decimals, price 2 USD). -/
def exTokenNative : Token := ⟨"BERA", "native", 18, some 2, true⟩

/-- A target token with 2 decimals, as in the spec's worked example. -/
def exTarget2 : Token := ⟨"TGT", "0xttt", 2, none, false⟩

/-- Selection of one unit of `exTokenA`. -/
def exSelA : TokenAmount := ⟨exTokenA, .dec 1 0, false⟩

/-- Selection of two units of `exTokenB`. -/
def exSelB : TokenAmount := ⟨exTokenB, .dec 2 0, false⟩

/-- Selection of one unit of the native token. -/
def exSelNative : TokenAmount := ⟨exTokenNative, .dec 1 0, false⟩

/-- A well-formed quote whose raw output amount is 100 smallest units. -/
def exQuote100 : SQuote := ⟨some "0xrouter", some "0xcalldata", .dec 100 0, .dec 99 0, 0⟩

/-- C10: with no API credential set, `prepareBundleTransactions` fails
with the explanatory error `"API key not set"` before filtering the
selections, for every selection list, and issues zero quote requests;
the missing credential is fatal to the whole call. -/
theorem C10_missing_api_key_fatal (oracle : TokenAmount → Except String SQuote)
    (selections : List TokenAmount) (target : Token) :
    prepareBundleTransactions true none oracle selections target = .failure "API key not set"
    ∧ prepareQuoteRequestCount true none selections = 0 :=
  ⟨rfl, rfl⟩

/-- C8: a price-cache entry stored at time `T` and looked up at
`T + window − 1` ms is returned without a fetch (and the cache is
untouched); looked up at `T + window + 1` ms it is treated as absent — the
lookup result and the issuing of a fetch are the same as for a cache that
never stored the entry. -/
theorem C8_cache_freshness (cache : PriceCache) (addr : String) (p : ℚ) (T : ℤ)
    (fetch : Except String (Option (List PriceItem))) (h : addr ≠ "") :
    getTokenPrice (cachePut cache addr ⟨p, T⟩) addr (T + priceExpiry - 1) fetch =
      ⟨some p, false, cachePut cache addr ⟨p, T⟩⟩
    ∧ (getTokenPrice (cachePut cache addr ⟨p, T⟩) addr (T + priceExpiry + 1) fetch).result =
      (getTokenPrice (cacheErase cache addr) addr (T + priceExpiry + 1) fetch).result
    ∧ (getTokenPrice (cachePut cache addr ⟨p, T⟩) addr (T + priceExpiry + 1) fetch).fetched =
      (getTokenPrice (cacheErase cache addr) addr (T + priceExpiry + 1) fetch).fetched := by
  have hput : cachePut cache addr ⟨p, T⟩ addr = some ⟨p, T⟩ := by simp [cachePut]
  have herase : cacheErase cache addr addr = none := by simp [cacheErase]
  refine ⟨?_, ?_, ?_⟩
  · unfold getTokenPrice
    rw [if_neg h, hput]
    simp only
    rw [if_pos (by unfold priceExpiry; omega)]
  · unfold getTokenPrice
    rw [if_neg h, if_neg h, hput, herase]
    simp only
    rw [if_neg (by unfold priceExpiry; omega)]
    exact (getTokenPriceFetch_indep _ _ addr _ fetch).1
  · unfold getTokenPrice
    rw [if_neg h, if_neg h, hput, herase]
    simp only
    rw [if_neg (by unfold priceExpiry; omega)]
    exact (getTokenPriceFetch_indep _ _ addr _ fetch).2

/-- Witness for C8 at a concrete entry: price 3 stored at time 0 for
address `"0xa"`, with an empty base cache and a non-array fetch result. -/
theorem C8_cache_freshness_witness :
    getTokenPrice (cachePut (fun _ => none) "0xa" ⟨3, 0⟩) "0xa" (0 + priceExpiry - 1) (.ok none) =
      ⟨some 3, false, cachePut (fun _ => none) "0xa" ⟨3, 0⟩⟩
    ∧ (getTokenPrice (cachePut (fun _ => none) "0xa" ⟨3, 0⟩) "0xa" (0 + priceExpiry + 1)
        (.ok none)).result =
      (getTokenPrice (cacheErase (fun _ => none) "0xa") "0xa" (0 + priceExpiry + 1)
        (.ok none)).result
    ∧ (getTokenPrice (cachePut (fun _ => none) "0xa" ⟨3, 0⟩) "0xa" (0 + priceExpiry + 1)
        (.ok none)).fetched =
      (getTokenPrice (cacheErase (fun _ => none) "0xa") "0xa" (0 + priceExpiry + 1)
        (.ok none)).fetched :=
  C8_cache_freshness (fun _ => none) "0xa" 3 0 (.ok none) (by decide)

/-- C5: a selection whose source asset is native produces exactly one
transaction — a swap whose attached native value is the input amount
converted to the asset's smallest units (`parseUnits(amount, decimals)`)
— and no approval transaction. -/
theorem C5_native_single_swap (target : Token) (ta : TokenAmount) (q : SQuote) (v out : ℤ)
    (hn : ta.token.isNative = true)
    (hv : ta.amount.parseUnits ta.token.decimals = some v)
    (hout : q.outputAmount.parseUnits target.decimals = some out) :
    processOne target ta q =
      .ok ([⟨q.routerAddress, v, .routerCall q.calldata⟩], usdContribution ta, out) := by
  unfold processOne
  rw [hout]
  simp [hn, hv]

/-- Witness for C5: one native unit (18 decimals) swapped toward a
2-decimal target gives one swap transaction with value `10^18` and no
approval. -/
theorem C5_native_single_swap_witness :
    processOne exTarget2 exSelNative exQuote100 =
      .ok ([⟨some "0xrouter", 1000000000000000000, .routerCall (some "0xcalldata")⟩],
        usdContribution exSelNative, 10000) :=
  C5_native_single_swap exTarget2 exSelNative exQuote100 1000000000000000000 10000
    (by decide) (by decide) (by decide)

/-- An HTTP-success response that lacks both the router endpoint address
and the call payload. -/
def exRespNoRouter : ApiResponse := ⟨true, 200, "", none, none, .dec 5 0, .dec 4 0, none⟩

/-- C3 counterexample: on a success response missing the router endpoint
and the call payload, `getSwapQuote` does NOT fail with a
malformed-response error — it returns a quote whose `routerAddress` and
`calldata` are absent, refuting the claim at this concrete input. -/
theorem C3_missing_fields_counterexample :
    getSwapQuote exTokenA (.dec 1 0) exRespNoRouter = .ok ⟨none, none, .dec 5 0, .dec 4 0, 0⟩ :=
  rfl

/-- C3 (amended): `getSwapQuote` performs no validation of a success
response — it returns the response fields verbatim, missing or not; the
only malformed-response check in the repository is in
`createSwapBundle`'s per-token closure, which fails that token when the
success response lacks the `tx` object (naming the token), while a `tx`
without a router address is later skipped silently. -/
theorem C3_no_validation_in_quote_client :
    (∀ (tok : Token) (amt : Amount) (resp : ApiResponse) (v : ℤ),
      amt.parseUnits tok.decimals = some v → resp.ok = true →
      getSwapQuote tok amt resp =
        .ok ⟨resp.routerAddress, resp.calldata, resp.outputAmount, resp.minOutputAmount,
          match resp.priceImpact with
          | some p => if p = 0 then 0 else p
          | none => 0⟩)
    ∧ (∀ (oracle : BToken → Except String BResp) (t : BToken) (a : ℤ) (resp : BResp),
      t.amount.parseUnits (jsDecimals t.decimals) = some a →
      oracle t = .ok resp → resp.tx = none →
      quoteOne oracle t =
        .err t ("Swap response does not contain transaction data for " ++ t.symbol)) := by
  constructor
  · intro tok amt resp v hv hok
    unfold getSwapQuote
    rw [hv]
    simp [hok]
  · intro oracle t a resp ha ho htx
    unfold quoteOne
    rw [ha, ho]
    simp [htx]

/-- A bridge-side token and a response that carries no `tx` object. -/
def exBTokenA : BToken := ⟨"0xaaa", "TKA", some 18, .dec 1 0⟩

/-- A swap response with no `tx` object. -/
def exBRespNoTx : BResp := ⟨none, some 100, none, some 90, none⟩

/-- Witness for C3's amended statement at concrete inputs. -/
theorem C3_no_validation_witness :
    getSwapQuote exTokenA (.dec 1 0)
      ⟨true, 200, "", some "0xrouter", some "0xcalldata", .dec 7 0, .dec 6 0, none⟩ =
      .ok ⟨some "0xrouter", some "0xcalldata", .dec 7 0, .dec 6 0, 0⟩
    ∧ quoteOne (fun _ => .ok exBRespNoTx) exBTokenA =
      .err exBTokenA "Swap response does not contain transaction data for TKA" :=
  ⟨C3_no_validation_in_quote_client.1 exTokenA (.dec 1 0)
      ⟨true, 200, "", some "0xrouter", some "0xcalldata", .dec 7 0, .dec 6 0, none⟩
      1000000000000000000 (by decide) rfl,
    C3_no_validation_in_quote_client.2 (fun _ => .ok exBRespNoTx) exBTokenA
      1000000000000000000 exBRespNoTx (by decide) rfl rfl⟩

/-- C2 (code bug): the claim describes the intended smallest-unit →
human-unit conversion, but `prepareBundleTransactions` applies
`parseUnits` to `quote.outputAmount` (line 118) before `formatUnits`
(line 143), a round trip that leaves the raw value unchanged: for a
single quote with expected output 100 smallest units and target precision
2, the returned `estimatedOutput` is 100, not the claimed 1.00.
`formatUnitsQ 100 2 = 1` records what the claimed (and sibling
`createSwapBundle`, line 276) conversion of the same raw value yields. -/
theorem C2_output_conversion_bug_eval :
    prepareBundleTransactions true (some "key") (fun _ => .ok exQuote100) [exSelA] exTarget2 =
      .ok [⟨some "0xaaa", 0, .approve "0xrouter" 1000000000000000000⟩,
        ⟨some "0xrouter", 0, .routerCall (some "0xcalldata")⟩] 0 100
    ∧ formatUnitsQ 100 2 = 1
    ∧ (100 : ℚ) ≠ 1 := by
  refine ⟨?_, by norm_num [formatUnitsQ], by norm_num⟩
  simp only [prepareBundleTransactions, mapQuotes, processTokens, processOne,
    createApprovalTransaction, usdContribution, exSelA, exTokenA, exQuote100, exTarget2]
  norm_num [Amount.parseUnits, amountPos, formatUnitsQ, List.filter]

/-- A bridge token with amount string `"0"` and a valid contract address:
`createSwapBundle` does not filter it out. -/
def exBTokenZero : BToken := ⟨"0xaaa", "TKA", some 18, .dec 0 0⟩

/-- C7 counterexample: a selection list whose single entry has amount 0
still causes `createSwapBundle` to issue one quote request (its filter at
lines 177–179 only drops native or address-less entries, never
zero/negative amounts), refuting "issues zero Quote Client requests". -/
theorem C7_zero_amount_request_counterexample :
    bridgeQuoteRequestCount "0xsafe" [exBTokenZero] = 1 := by
  decide

/-- C7 (amended): `prepareBundleTransactions` discards all entries whose
amount is zero, negative or non-numeric, fails immediately with the
`"No valid swaps to execute"` error when none remain, and issues zero
quote requests; `createSwapBundle`, however, does not inspect amounts, so
a zero-amount entry with a valid non-native address still triggers a
quote request. -/
theorem C7_empty_after_amount_filter :
    (∀ (key : String) (oracle : TokenAmount → Except String SQuote)
      (selections : List TokenAmount) (target : Token),
      (∀ ta ∈ selections, amountPos ta.amount = false) →
      prepareBundleTransactions true (some key) oracle selections target =
        .failure "No valid swaps to execute"
      ∧ prepareQuoteRequestCount true (some key) selections = 0)
    ∧ (∀ (safeAddress : String) (t : BToken), safeAddress ≠ "" →
      bridgeFilter t = true → (t.amount.parseUnits (jsDecimals t.decimals)).isSome = true →
      bridgeQuoteRequestCount safeAddress [t] = 1) := by
  constructor
  · intro key oracle selections target hall
    have hfil : selections.filter (fun ta => amountPos ta.amount) = [] := by
      rw [List.filter_eq_nil_iff]
      intro ta hta
      simp [hall ta hta]
    constructor
    · unfold prepareBundleTransactions
      rw [hfil]
      rfl
    · unfold prepareQuoteRequestCount
      rw [hfil]
      rfl
  · intro safeAddress t hsafe hfil hparse
    unfold bridgeQuoteRequestCount
    rw [if_neg hsafe]
    simp [hfil, hparse]

/-- Witness for C7's amended statement: a list holding a zero-amount and
a non-numeric selection fails with the empty error and zero requests, and
the zero-amount bridge token issues exactly one request. -/
theorem C7_empty_after_amount_filter_witness :
    (prepareBundleTransactions true (some "key") (fun _ => .ok exQuote100)
        [⟨exTokenA, .dec 0 0, false⟩, ⟨exTokenB, .nonNumeric, false⟩] exTarget2 =
        .failure "No valid swaps to execute"
      ∧ prepareQuoteRequestCount true (some "key")
        [⟨exTokenA, .dec 0 0, false⟩, ⟨exTokenB, .nonNumeric, false⟩] = 0)
    ∧ bridgeQuoteRequestCount "0xsafe" [exBTokenZero] = 1 :=
  ⟨C7_empty_after_amount_filter.1 "key" (fun _ => .ok exQuote100)
      [⟨exTokenA, .dec 0 0, false⟩, ⟨exTokenB, .nonNumeric, false⟩] exTarget2 (by decide),
    C7_empty_after_amount_filter.2 "0xsafe" exBTokenZero (by decide) (by decide) (by decide)⟩

/-- A quote oracle for which the second selection's request fails with
`"upstream"` while every other request succeeds. -/
def exOracleSecondFails : TokenAmount → Except String SQuote := fun ta =>
  if ta.token.address = "0xbbb" then .error "upstream" else .ok exQuote100

/-- C1 counterexample: two selections with positive amounts; the first
quote succeeds and the second fails with `"upstream"`.
`prepareBundleTransactions` (which awaits `Promise.all`, rejecting on the
first rejection) returns overall failure instead of a successful result
containing the first selection's operations — a single quote failure IS
fatal there, refuting the claim. -/
theorem C1_single_failure_fatal_counterexample :
    prepareBundleTransactions true (some "key") exOracleSecondFails [exSelA, exSelB] exTarget2 =
      .failure "upstream" := by
  decide

/-- C1 (amended): in `createSwapBundle` a single quote failure among
several selections is not fatal — the per-token closure catches it and the
result is a successful bundle containing swap (and approval) transactions
only for the selections whose quotes succeeded, with the failed entry's
reason held in its intermediate result record but not included in the
returned bundle; in `prepareBundleTransactions`, by contrast, any single
quote failure rejects the whole `Promise.all` and the call fails. -/
theorem C1_partial_failure_behaviour :
    (∀ (safe : String) (target : BTarget) (oracle : BToken → Except String BResp)
      (t1 t2 t3 : BToken) (a1 a3 : ℤ) (tx1 tx3 : BTx) (o1 o3 : ℤ)
      (m1 m3 : Option ℤ) (p1 p3 : Option ℚ) (r1 r3 : String) (e2 : String),
      safe ≠ "" → bridgeFilter t1 = true → bridgeFilter t2 = true → bridgeFilter t3 = true →
      quoteOne oracle t1 = .ok t1 a1 tx1 (some o1) m1 p1 →
      quoteOne oracle t2 = .err t2 e2 →
      quoteOne oracle t3 = .ok t3 a3 tx3 (some o3) m3 p3 →
      tx1.toAddr = some r1 → r1 ≠ "" → tx3.toAddr = some r3 → r3 ≠ "" →
      createSwapBundle safe [t1, t2, t3] target oracle =
        .ok [mkSwapTx target t1 a1 tx1 o1 m1 p1 r1, mkSwapTx target t3 a3 tx3 o3 m3 p3 r3]
          [⟨t1.address, r1, maxUint256⟩, ⟨t3.address, r3, maxUint256⟩]
          ((mkSwapTx target t1 a1 tx1 o1 m1 p1 r1).formattedAmountOut +
            (mkSwapTx target t3 a3 tx3 o3 m3 p3 r3).formattedAmountOut))
    ∧ (∀ (key : String) (target : Token) (oracle : TokenAmount → Except String SQuote)
      (ta1 ta2 : TokenAmount) (q1 : SQuote) (e : String),
      amountPos ta1.amount = true → amountPos ta2.amount = true →
      oracle ta1 = .ok q1 → oracle ta2 = .error e →
      prepareBundleTransactions true (some key) oracle [ta1, ta2] target = .failure e) := by
  constructor
  · intro safe target oracle t1 t2 t3 a1 a3 tx1 tx3 o1 o3 m1 m3 p1 p3 r1 r3 e2
    intro hsafe hf1 hf2 hf3 hq1 hq2 hq3 htx1 hr1 htx3 hr3
    unfold createSwapBundle
    rw [if_neg hsafe]
    simp only [List.isEmpty_cons, Bool.false_eq_true, if_false, List.filter_cons,
      List.filter_nil, hf1, hf2, hf3, if_true, List.map_cons, List.map_nil, hq1, hq2, hq3]
    simp [buildTxs, htx1, htx3, hr1, hr3, zero_add]
  · intro key target oracle ta1 ta2 q1 e h1 h2 ho1 ho2
    unfold prepareBundleTransactions mapQuotes
    simp only [List.filter_cons, List.filter_nil, h1, h2, if_true, List.isEmpty_cons,
      Bool.false_eq_true, if_false, ho1, ho2]
    simp [mapQuotes, ho2]

/-- Concrete tokens for the three-selection bridge scenario. -/
def exB1 : BToken := ⟨"0x111", "TK1", some 18, .dec 1 0⟩

/-- Second bridge token; its quote request fails. -/
def exB2 : BToken := ⟨"0x222", "TK2", some 18, .dec 2 0⟩

/-- Third bridge token. -/
def exB3 : BToken := ⟨"0x333", "TK3", some 18, .dec 3 0⟩

/-- Target token for the bridge scenario. -/
def exBTarget18 : BTarget := ⟨"0x000", "BERA", some 18⟩

/-- The `tx` object returned for the successful bridge quotes. -/
def exBTxR : BTx := ⟨some "0xrouter", some "0xdata", none⟩

/-- Bridge oracle failing exactly on the second token. -/
def exBOracleSecondFails : BToken → Except String BResp := fun t =>
  if t.address = "0x222" then .error "upstream" else .ok ⟨some exBTxR, some 100, none, some 90, none⟩

/-- Witness for C1's amended statement at concrete inputs. -/
theorem C1_partial_failure_witness :
    createSwapBundle "0xsafe" [exB1, exB2, exB3] exBTarget18 exBOracleSecondFails =
      .ok [mkSwapTx exBTarget18 exB1 1000000000000000000 exBTxR 100 (some 90) none "0xrouter",
          mkSwapTx exBTarget18 exB3 3000000000000000000 exBTxR 100 (some 90) none "0xrouter"]
        [⟨"0x111", "0xrouter", maxUint256⟩, ⟨"0x333", "0xrouter", maxUint256⟩]
        ((mkSwapTx exBTarget18 exB1 1000000000000000000 exBTxR 100 (some 90) none
            "0xrouter").formattedAmountOut +
          (mkSwapTx exBTarget18 exB3 3000000000000000000 exBTxR 100 (some 90) none
            "0xrouter").formattedAmountOut)
    ∧ prepareBundleTransactions true (some "key") exOracleSecondFails [exSelA, exSelB]
        exTarget2 = .failure "upstream" :=
  ⟨C1_partial_failure_behaviour.1 "0xsafe" exBTarget18 exBOracleSecondFails exB1 exB2 exB3
      1000000000000000000 3000000000000000000 exBTxR exBTxR 100 100 (some 90) (some 90)
      none none "0xrouter" "0xrouter" "upstream" (by decide) (by decide) (by decide)
      (by decide) (by decide) (by decide) (by decide) (by decide) (by decide) (by decide)
      (by decide),
    C1_partial_failure_behaviour.2 "key" exTarget2 exOracleSecondFails exSelA exSelB
      exQuote100 "upstream" (by decide) (by decide) rfl rfl⟩

/-- A bridge token with 2 decimals (so a raw output of 100 formats to 1). -/
def exBTokenC : BToken := ⟨"0xccc", "TKC", some 2, .dec 1 0⟩

/-- A 2-decimal bridge target token. -/
def exBTarget2 : BTarget := ⟨"0x000", "BERA", some 2⟩

/-- A successful bridge quote response carrying `exBTxR` and a raw output
of 100 smallest units. -/
def exBRespC : BResp := ⟨some ⟨some "0xrouter", some "0xdata", none⟩, some 100, none, some 90, none⟩

/-- C4 counterexample: `createSwapBundle` emits an approval that
authorizes the router for `MaxUint256` — an unlimited allowance — not the
exact swapped amount (here 100 smallest units), refuting "never an
unlimited (max uint256) allowance" at this concrete input. -/
theorem C4_unlimited_allowance_counterexample :
    createSwapBundle "0xsafe" [exBTokenC] exBTarget2 (fun _ => .ok exBRespC) =
      .ok [{ toAddr := "0xrouter", data := some "0xdata", value := 0,
             tokenAddress := "0xccc", amountIn := 100, outputToken := "0x000",
             outputQuote := some 100, minOutput := 90, formattedAmountOut := 1,
             priceImpact := none }]
        [⟨"0xccc", "0xrouter", maxUint256⟩] 1 := by
  have h1 : formatUnitsQ 100 2 = 1 := by norm_num [formatUnitsQ]
  norm_num [createSwapBundle, quoteOne, buildTxs, mkSwapTx, bridgeFilter, jsDecimals,
    Amount.parseUnits, exBTokenC, exBTarget2, exBRespC, h1]
  simp

theorem buildTxs_approvals_unlimited (target : BTarget) (results : List BQuoteResult) :
    ∀ swaps apprs, buildTxs target results = .ok (swaps, apprs) →
    ∀ a ∈ apprs, a.amount = maxUint256 := by
  induction results with
  | nil =>
    intro swaps apprs h a ha
    simp only [buildTxs, Except.ok.injEq, Prod.mk.injEq] at h
    obtain ⟨-, h2⟩ := h
    rw [← h2] at ha
    cases ha
  | cons r rest ih =>
    intro swaps apprs h a ha
    cases r with
    | err t e => exact ih swaps apprs (by simpa [buildTxs] using h) a ha
    | ok t amountIn tx outAmt minOut pI =>
      cases htx : tx.toAddr with
      | none => exact ih swaps apprs (by simpa [buildTxs, htx] using h) a ha
      | some toAddr =>
        by_cases hz : toAddr = ""
        · exact ih swaps apprs (by simpa [buildTxs, htx, hz] using h) a ha
        · cases hout : outAmt with
          | none => simp [buildTxs, htx, hz, hout] at h
          | some o =>
            cases hrest : buildTxs target rest with
            | error e => simp [buildTxs, htx, hz, hout, hrest] at h
            | ok pr =>
              obtain ⟨swaps₂, apprs₂⟩ := pr
              simp only [buildTxs, htx, hz, hout, hrest, if_false, Except.ok.injEq,
                Prod.mk.injEq, if_neg hz] at h
              obtain ⟨-, h2⟩ := h
              rw [← h2] at ha
              rcases List.mem_cons.mp ha with hhead | htail
              · rw [hhead]
              · exact ih swaps₂ apprs₂ hrest a htail

/-- C4 (amended): in `prepareBundleTransactions` every non-native
selection with a successful quote yields an approval of exactly the
swapped amount in smallest units for the quote's router, followed by a
swap with native value zero; in `createSwapBundle`, however, every
emitted approval authorizes the router for the unlimited `MaxUint256`
allowance. -/
theorem C4_exact_vs_unlimited_approval :
    (∀ (target : Token) (ta : TokenAmount) (q : SQuote) (r : String) (v out : ℤ),
      ta.token.isNative = false → q.routerAddress = some r →
      ta.amount.parseUnits ta.token.decimals = some v →
      q.outputAmount.parseUnits target.decimals = some out →
      processOne target ta q =
        .ok ([⟨some ta.token.address, 0, .approve r v⟩, ⟨some r, 0, .routerCall q.calldata⟩],
          usdContribution ta, out))
    ∧ (∀ (target : BTarget) (results : List BQuoteResult) (swaps : List BSwapTx)
      (apprs : List BApprovalTx), buildTxs target results = .ok (swaps, apprs) →
      ∀ a ∈ apprs, a.amount = maxUint256) := by
  constructor
  · intro target ta q r v out hn hr hv hout
    unfold processOne createApprovalTransaction
    rw [hout]
    simp [hn, hv, hr]
  · exact fun target results swaps apprs => buildTxs_approvals_unlimited target results swaps apprs

/-- Witness for C4's amended statement: the concrete non-native selection
gets an exact-amount approval then a zero-value swap, and a concrete
bridge build yields only `MaxUint256` approvals. -/
theorem C4_exact_vs_unlimited_witness :
    processOne exTarget2 exSelA exQuote100 =
      .ok ([⟨some "0xaaa", 0, .approve "0xrouter" 1000000000000000000⟩,
          ⟨some "0xrouter", 0, .routerCall (some "0xcalldata")⟩],
        usdContribution exSelA, 10000)
    ∧ ∀ a ∈ [(⟨"0xccc", "0xrouter", maxUint256⟩ : BApprovalTx)], a.amount = maxUint256 :=
  ⟨C4_exact_vs_unlimited_approval.1 exTarget2 exSelA exQuote100 "0xrouter"
      1000000000000000000 10000 (by decide) (by decide) (by decide) (by decide),
    C4_exact_vs_unlimited_approval.2 exBTarget2
      [.ok exBTokenC 100 ⟨some "0xrouter", some "0xdata", none⟩ (some 100) (some 90) none]
      [mkSwapTx exBTarget2 exBTokenC 100 ⟨some "0xrouter", some "0xdata", none⟩ 100
        (some 90) none "0xrouter"]
      [⟨"0xccc", "0xrouter", maxUint256⟩] rfl⟩

/-- C6: for a non-empty selection list with all-positive amounts where
every quote succeeds (and the quotes are well-formed so the loop cannot
throw), `prepareBundleTransactions` succeeds with the transaction list
grouped per selection in input order — each group being `expectedOps`
(the exact-amount approval preceding the swap for non-native assets, the
single swap for native ones) — and its length is the sum over selections
of 1 for a native asset and 2 otherwise. -/
theorem C6_operation_list_shape (key : String) (oracle : TokenAmount → Except String SQuote)
    (selections : List TokenAmount) (quotes : List SQuote) (target : Token)
    (hne : selections ≠ [])
    (hpos : ∀ ta ∈ selections, amountPos ta.amount = true)
    (hq : mapQuotes oracle selections = .ok quotes)
    (hwf : ∀ p ∈ selections.zip quotes, selectionWF target p.1 p.2) :
    prepareBundleTransactions true (some key) oracle selections target =
      .ok (opsConcat target (selections.zip quotes)) (usdSum (selections.zip quotes))
        (formatUnitsQ (outSum target (selections.zip quotes)) target.decimals)
    ∧ (opsConcat target (selections.zip quotes)).length =
      (selections.map (fun ta => if ta.token.isNative then 1 else 2)).sum := by
  have hfil : selections.filter (fun ta => amountPos ta.amount) = selections :=
    List.filter_eq_self.mpr hpos
  have hlen : quotes.length = selections.length := mapQuotes_length hq
  have hie : selections.isEmpty = false := by
    cases selections with
    | nil => exact absurd rfl hne
    | cons a l => rfl
  constructor
  · unfold prepareBundleTransactions
    simp only [Bool.not_true, Bool.false_eq_true, if_false, Option.isNone_some, hfil, hie, hq]
    rw [processTokens_wf hwf]
  · rw [opsConcat_length]
    have hmap : (selections.zip quotes).map
          ((fun ta => if ta.token.isNative then 1 else 2) ∘ Prod.fst) =
        selections.map (fun ta => if ta.token.isNative then 1 else 2) := by
      rw [← List.map_map, List.map_fst_zip selections quotes (by omega)]
    rw [← hmap]
    rfl

/-- Witness for C6: a non-native and a native selection, every quote
succeeding, give the four transactions in selection order. -/
theorem C6_operation_list_shape_witness :
    prepareBundleTransactions true (some "key") (fun _ => .ok exQuote100)
      [exSelA, exSelNative] exTarget2 =
      .ok (opsConcat exTarget2 ([exSelA, exSelNative].zip [exQuote100, exQuote100]))
        (usdSum ([exSelA, exSelNative].zip [exQuote100, exQuote100]))
        (formatUnitsQ (outSum exTarget2 ([exSelA, exSelNative].zip [exQuote100, exQuote100]))
          exTarget2.decimals)
    ∧ (opsConcat exTarget2 ([exSelA, exSelNative].zip [exQuote100, exQuote100])).length =
      ([exSelA, exSelNative].map (fun ta => if ta.token.isNative then 1 else 2)).sum :=
  C6_operation_list_shape "key" (fun _ => .ok exQuote100) [exSelA, exSelNative]
    [exQuote100, exQuote100] exTarget2 (by decide) (by decide) rfl (by decide)

theorem processOne_ok_has_swap {target : Token} {ta : TokenAmount} {q : SQuote}
    {txs : List Tx} {usd : ℚ} {out : ℤ}
    (h : processOne target ta q = .ok (txs, usd, out)) : ∃ tx ∈ txs, tx.isSwap = true := by
  unfold processOne at h
  cases hout : q.outputAmount.parseUnits target.decimals with
  | none => rw [hout] at h; cases h
  | some o =>
    rw [hout] at h
    dsimp only at h
    by_cases hn : ta.token.isNative
    · rw [if_pos hn] at h
      cases hv : ta.amount.parseUnits ta.token.decimals with
      | none => rw [hv] at h; cases h
      | some v =>
        rw [hv] at h
        simp only [Except.ok.injEq, Prod.mk.injEq] at h
        obtain ⟨h1, -, -⟩ := h
        refine ⟨⟨q.routerAddress, v, .routerCall q.calldata⟩, ?_, rfl⟩
        rw [← h1]
        simp
    · rw [if_neg hn] at h
      cases ha : createApprovalTransaction ta.token q.routerAddress ta.amount with
      | error e => rw [ha] at h; cases h
      | ok appr =>
        rw [ha] at h
        simp only [Except.ok.injEq, Prod.mk.injEq] at h
        obtain ⟨h1, -, -⟩ := h
        refine ⟨⟨q.routerAddress, 0, .routerCall q.calldata⟩, ?_, rfl⟩
        rw [← h1]
        simp

theorem prepare_ok_contains_swap {sdkSet : Bool} {apiKey : Option String}
    {oracle : TokenAmount → Except String SQuote} {selections : List TokenAmount}
    {target : Token} {txs : List Tx} {usd est : ℚ}
    (h : prepareBundleTransactions sdkSet apiKey oracle selections target = .ok txs usd est) :
    ∃ tx ∈ txs, tx.isSwap = true := by
  unfold prepareBundleTransactions at h
  cases sdkSet with
  | false => exact absurd h (by simp)
  | true =>
    cases apiKey with
    | none => exact absurd h (by simp)
    | some key =>
      simp only [Bool.not_true, Bool.false_eq_true, if_false, Option.isNone_some] at h
      cases hie : (selections.filter (fun ta => amountPos ta.amount)).isEmpty with
      | true => simp [hie] at h
      | false =>
        simp only [hie, Bool.false_eq_true, if_false] at h
        cases hmq : mapQuotes oracle (selections.filter (fun ta => amountPos ta.amount)) with
        | error e => simp [hmq] at h
        | ok quotes =>
          have hvne : selections.filter (fun ta => amountPos ta.amount) ≠ [] := by
            intro hnil
            rw [hnil] at hie
            simp at hie
          have hlen := mapQuotes_length hmq
          obtain ⟨v, vs, hvcons⟩ := List.exists_cons_of_ne_nil hvne
          cases quotes with
          | nil =>
            rw [hvcons] at hlen
            simp at hlen
          | cons q qs =>
            rw [hmq, hvcons] at h
            dsimp only at h
            rw [List.zip_cons_cons] at h
            cases hpt : processTokens target ((v, q) :: vs.zip qs) with
            | error e => simp [hpt] at h
            | ok triple =>
              obtain ⟨txs₀, usd₀, out₀⟩ := triple
              rw [hpt] at h
              dsimp only at h
              simp only [PrepareResult.ok.injEq] at h
              obtain ⟨h1, -, -⟩ := h
              unfold processTokens at hpt
              cases hp1 : processOne target v q with
              | error e => rw [hp1] at hpt; cases hpt
              | ok triple₁ =>
                obtain ⟨txs₁, usd₁, out₁⟩ := triple₁
                rw [hp1] at hpt
                cases hpr : processTokens target (vs.zip qs) with
                | error e => rw [hpr] at hpt; cases hpt
                | ok triple₂ =>
                  obtain ⟨txs₂, usd₂, out₂⟩ := triple₂
                  rw [hpr] at hpt
                  simp only [Except.ok.injEq, Prod.mk.injEq] at hpt
                  obtain ⟨h2, -, -⟩ := hpt
                  obtain ⟨tx, htx, hsw⟩ := processOne_ok_has_swap hp1
                  refine ⟨tx, ?_, hsw⟩
                  rw [← h1, ← h2]
                  exact List.mem_append_left txs₂ htx

theorem createSwapBundle_ok_nonempty {safe : String} {toks : List BToken} {target : BTarget}
    {oracle : BToken → Except String BResp} {swaps : List BSwapTx} {apprs : List BApprovalTx}
    {tot : ℚ} (h : createSwapBundle safe toks target oracle = .ok swaps apprs tot) :
    swaps ≠ [] := by
  unfold createSwapBundle at h
  by_cases hs : safe = ""
  · rw [if_pos hs] at h; cases h
  · rw [if_neg hs] at h
    cases hie : toks.isEmpty with
    | true => simp [hie] at h
    | false =>
      simp only [hie, Bool.false_eq_true, if_false] at h
      cases hfe : (toks.filter bridgeFilter).isEmpty with
      | true => simp [hfe] at h
      | false =>
        simp only [hfe, Bool.false_eq_true, if_false] at h
        cases hb : buildTxs target ((toks.filter bridgeFilter).map (quoteOne oracle)) with
        | error e => rw [hb] at h; cases h
        | ok pr =>
          obtain ⟨sw, ap⟩ := pr
          rw [hb] at h
          cases hswe : sw.isEmpty with
          | true => simp [hswe] at h
          | false =>
            simp only [hswe, Bool.false_eq_true, if_false] at h
            simp only [BundleResult.ok.injEq] at h
            obtain ⟨h1, -, -⟩ := h
            rw [← h1]
            intro hnil
            rw [hnil] at hswe
            simp at hswe

theorem buildTxs_all_err (target : BTarget) : ∀ results : List BQuoteResult,
    (∀ r ∈ results, r.isErr = true) → buildTxs target results = .ok ([], [])
  | [], _ => rfl
  | r :: rest, h => by
    cases r with
    | err t e =>
      exact buildTxs_all_err target rest fun x hx => h x (List.mem_cons_of_mem _ hx)
    | ok t a tx o m p =>
      have := h _ (List.mem_cons_self _ _)
      simp [BQuoteResult.isErr] at this

theorem createSwapBundle_all_failed {safe : String} {toks : List BToken} {target : BTarget}
    {oracle : BToken → Except String BResp}
    (hs : safe ≠ "") (hne : toks.isEmpty = false)
    (hfe : (toks.filter bridgeFilter).isEmpty = false)
    (hall : ∀ t ∈ toks.filter bridgeFilter, (quoteOne oracle t).isErr = true) :
    createSwapBundle safe toks target oracle =
      .err "Failed to create any valid swap transactions" := by
  unfold createSwapBundle
  rw [if_neg hs]
  simp only [hne, hfe, Bool.false_eq_true, if_false]
  rw [buildTxs_all_err target _ ?_]
  · rfl
  · intro r hr
    obtain ⟨t, ht, rfl⟩ := List.mem_map.mp hr
    exact hall t ht

theorem prepare_first_quote_error {key : String} {oracle : TokenAmount → Except String SQuote}
    {selections : List TokenAmount} {target : Token} {ta : TokenAmount}
    {rest : List TokenAmount} {e : String}
    (hfil : selections.filter (fun x => amountPos x.amount) = ta :: rest)
    (ho : oracle ta = .error e) :
    prepareBundleTransactions true (some key) oracle selections target = .failure e := by
  unfold prepareBundleTransactions
  simp only [Bool.not_true, Bool.false_eq_true, if_false, Option.isNone_some, hfil,
    List.isEmpty_cons, mapQuotes_cons_error rest ho]

/-- C9 counterexample: with a single positive selection whose quote fails
with an upstream message, `prepareBundleTransactions` does fail — but
with the upstream message passed through, not with a distinct
no-valid-swaps error (the string `"No valid swaps to execute"` is its
empty-input error; no separate zero-successes error exists there). -/
theorem C9_upstream_passthrough_counterexample :
    prepareBundleTransactions true (some "key") (fun _ => .error "API request failed: 502 down")
      [exSelA] exTarget2 = .failure "API request failed: 502 down"
    ∧ prepareBundleTransactions true (some "key")
      (fun _ => .error "API request failed: 502 down") [exSelA] exTarget2 ≠
      .failure "No valid swaps to execute" := by
  constructor <;> decide

/-- C9 (amended): a non-error bundle result always contains at least one
swap operation, and an all-failed input never yields a successful empty
bundle: `createSwapBundle` then returns the no-valid-swaps error
(`"Failed to create any valid swap transactions"`), while
`prepareBundleTransactions` fails with the first failing quote's own
message rather than a distinct no-valid-swaps error. -/
theorem C9_no_successful_empty_bundle :
    (∀ (safe : String) (toks : List BToken) (target : BTarget)
      (oracle : BToken → Except String BResp) (swaps : List BSwapTx)
      (apprs : List BApprovalTx) (tot : ℚ),
      createSwapBundle safe toks target oracle = .ok swaps apprs tot → swaps ≠ [])
    ∧ (∀ (sdkSet : Bool) (apiKey : Option String)
      (oracle : TokenAmount → Except String SQuote) (selections : List TokenAmount)
      (target : Token) (txs : List Tx) (usd est : ℚ),
      prepareBundleTransactions sdkSet apiKey oracle selections target = .ok txs usd est →
      ∃ tx ∈ txs, tx.isSwap = true)
    ∧ (∀ (safe : String) (toks : List BToken) (target : BTarget)
      (oracle : BToken → Except String BResp),
      safe ≠ "" → toks.isEmpty = false → (toks.filter bridgeFilter).isEmpty = false →
      (∀ t ∈ toks.filter bridgeFilter, (quoteOne oracle t).isErr = true) →
      createSwapBundle safe toks target oracle =
        .err "Failed to create any valid swap transactions")
    ∧ (∀ (key : String) (oracle : TokenAmount → Except String SQuote)
      (selections : List TokenAmount) (target : Token) (ta : TokenAmount)
      (rest : List TokenAmount) (e : String),
      selections.filter (fun x => amountPos x.amount) = ta :: rest →
      oracle ta = .error e →
      prepareBundleTransactions true (some key) oracle selections target = .failure e) :=
  ⟨fun _ _ _ _ _ _ _ h => createSwapBundle_ok_nonempty h,
    fun _ _ _ _ _ _ _ _ h => prepare_ok_contains_swap h,
    fun _ _ _ _ hs hne hfe hall => createSwapBundle_all_failed hs hne hfe hall,
    fun _ _ _ _ _ _ _ hfil ho => prepare_first_quote_error hfil ho⟩

/-- Witness for C9's amended statement: a successful concrete bundle has
a non-empty swap list / a swap transaction, and concrete all-failed
inputs produce the respective terminal errors. -/
theorem C9_no_successful_empty_bundle_witness :
    ([mkSwapTx exBTarget2 exBTokenC 100 ⟨some "0xrouter", some "0xdata", none⟩ 100
        (some 90) none "0xrouter"] : List BSwapTx) ≠ []
    ∧ (∃ tx ∈ [(⟨some "0xaaa", 0, .approve "0xrouter" 1000000000000000000⟩ : Tx),
        ⟨some "0xrouter", 0, .routerCall (some "0xcalldata")⟩], tx.isSwap = true)
    ∧ createSwapBundle "0xsafe" [exBTokenC] exBTarget2 (fun _ => .error "down") =
      .err "Failed to create any valid swap transactions"
    ∧ prepareBundleTransactions true (some "key")
      (fun _ => .error "API request failed: 502 down") [exSelA] exTarget2 =
      .failure "API request failed: 502 down" :=
  ⟨C9_no_successful_empty_bundle.1 "0xsafe" [exBTokenC] exBTarget2 (fun _ => .ok exBRespC)
      [mkSwapTx exBTarget2 exBTokenC 100 ⟨some "0xrouter", some "0xdata", none⟩ 100
        (some 90) none "0xrouter"]
      [⟨"0xccc", "0xrouter", maxUint256⟩] (0 + formatUnitsQ 100 2) rfl,
    C9_no_successful_empty_bundle.2.1 true (some "key") (fun _ => .ok exQuote100) [exSelA]
      exTarget2
      [⟨some "0xaaa", 0, .approve "0xrouter" 1000000000000000000⟩,
        ⟨some "0xrouter", 0, .routerCall (some "0xcalldata")⟩]
      (usdContribution exSelA + 0) (formatUnitsQ (10000 + 0) 2) rfl,
    C9_no_successful_empty_bundle.2.2.1 "0xsafe" [exBTokenC] exBTarget2
      (fun _ => .error "down") (by decide) (by decide) (by decide) (by decide),
    C9_no_successful_empty_bundle.2.2.2 "key" (fun _ => .error "API request failed: 502 down")
      [exSelA] exTarget2 exSelA [] "API request failed: 502 down" (by decide) rfl⟩
